import Mathlib

/-!
Verification of the Drishti AI face-matching server (ai_server) against its
natural-language specification.

The development is a shallow embedding of the Python source.  Conventions:

* Times (`time.time()` values) and DeepFace cosine distances are rationals
  (`ℚ`).  The source works with Python floats; no claim here depends on
  rounding of the float arithmetic itself, only on comparisons and on
  exact additions/subtractions of the small constants involved.
* DeepFace (the external face library) is opaque: each call site's outcome
  is a parameter of the embedded function.  A `DeepFace.verify` comparison
  against a gallery candidate is `Option ℚ` — `none` models the call
  raising (the source's `except Exception: continue`), `some d` models a
  successful call whose reported cosine distance is `d`.  The spec's
  cosine similarity relates to the source's distance by
  similarity = 1 - distance (the source computes
  `confidence = 1 - float(distance)`).
* Python dictionaries keyed by strings are embedded as `String → Option ℚ`.
* Methods resolved dynamically on an object are modelled where a claim
  depends on attribute lookup: the list of method names a class defines is
  taken verbatim from the source, and a call to a name outside that list
  takes the `AttributeError` path of the surrounding `try`/`except`.
-/

namespace Drishti

/-! ## Configuration constants (modules/config.py) -/

/-- config.py line 14: `CONFIDENCE_THRESHOLD = 0.40` (single-image uploads). -/
def CONFIDENCE_THRESHOLD : ℚ := 40 / 100

/-- config.py line 17: `LIVE_STREAM_CONFIDENCE_THRESHOLD = 0.30`. -/
def LIVE_STREAM_CONFIDENCE_THRESHOLD : ℚ := 30 / 100

/-- config.py line 27: `MATCH_COOLDOWN = 5.0` seconds. -/
def MATCH_COOLDOWN : ℚ := 5

/-! ## ImageProcessor (modules/image_processor.py) -/

/-- ASCII lower-casing of one character, modelling Python's `str.lower`
on the file names the system handles. -/
def py_lower_char (c : Char) : Char :=
  if c.isUpper then Char.ofNat (c.toNat + 32) else c

/-- Suffix test on character lists, modelling Python's `str.endswith`. -/
def ends_with_chars (s suffix : List Char) : Bool := suffix.isSuffixOf s

/-- The lower-cased-suffix test `f.lower().endswith(('.png', '.jpg', '.jpeg'))`
used both by `ImageProcessor.get_image_files` (image_processor.py line 63) and
by `ReportsFileHandler.on_created` (file_monitor.py line 29). -/
def is_image_path (p : String) : Bool :=
  ends_with_chars (p.data.map py_lower_char) ".png".data ||
  ends_with_chars (p.data.map py_lower_char) ".jpg".data ||
  ends_with_chars (p.data.map py_lower_char) ".jpeg".data

/-- image_processor.py lines 58-63, `ImageProcessor.get_image_files`:
returns `[]` when the directory does not exist, otherwise the directory
entries whose lower-cased name carries an image suffix.  `dirExists` models
`os.path.exists(directory)` and `entries` models `os.listdir(directory)`. -/
def get_image_files (dirExists : Bool) (entries : List String) : List String :=
  if dirExists then entries.filter (fun f => is_image_path f) else []

/-- The method names the `ImageProcessor` class defines
(image_processor.py lines 15-107).  Attribute lookup of any other name on an
`ImageProcessor` instance raises `AttributeError`. -/
def imageProcessorMethods : List String :=
  ["enhance_image", "cleanup_temp_files", "get_image_files",
   "initialize_face_detector", "has_face", "draw_face_rectangles"]

/-! ## DatabaseManager (modules/database_manager.py) -/

/-- The file-system facts the database manager reads: the number of gallery
image files under `DB_PATH` and whether some `.pkl` index file is present
there (`DatabaseManager.get_pickle_file`, lines 39-46). -/
structure World where
  galleryCount : ℕ
  pickleExists : Bool
deriving DecidableEq, Repr

/-- database_manager.py lines 20-28, class `DatabaseState` (the fields the
claims read; the cached model object is not modelled). -/
structure DBState where
  last_build_time : Option ℚ
  image_count : ℕ
  is_building : Bool
  build_duration : Option ℚ
  error_count : ℕ
deriving DecidableEq, Repr

/-- database_manager.py lines 48-64, `DatabaseManager.should_rebuild_database`:
if no pickle file exists, return `current_count > 0`; otherwise return
whether the current count differs from the cached `state.image_count`. -/
def should_rebuild_database (w : World) (st : DBState) : Bool :=
  if !w.pickleExists then decide (0 < w.galleryCount)
  else if w.galleryCount ≠ st.image_count then true
  else false

/-- database_manager.py line 88: the state written at the entry of
`update_database_async`, before any rebuild work (`self.state.is_building = True`). -/
def update_entry (st : DBState) : DBState := { st with is_building := true }

/-- database_manager.py lines 100-104: the full-rebuild criterion
`image_count == 0 or not pickle or current_count > image_count * 1.5`.
The float comparison `current_count > image_count * 1.5` is exact on the
integer counts involved and is written `2 * current > 3 * cached`. -/
def needs_full_rebuild (w : World) (st : DBState) : Bool :=
  st.image_count = 0 || !w.pickleExists || decide (2 * w.galleryCount > 3 * st.image_count)

/-- The result observable by a caller of `update_database_async`. -/
inductive UpdateResult
  | busy
  | ok
  | error
deriving DecidableEq, Repr

/-- database_manager.py lines 81-127, `DatabaseManager.update_database_async`.

Parameters beyond the state:
* `raises` — whether the rebuild body raises an unexpected exception
  (the `except Exception` clause at line 122; re-raised after counting).
  The file-system effects of a half-finished rebuild are not modelled:
  no claim reads `World` on the error path.
* `findOk` — whether the `DeepFace.find` call inside
  `_validate_and_build_database` succeeds in producing a fresh `.pkl`
  index (a full rebuild first deletes every existing `.pkl`,
  `_full_rebuild` lines 131-140, and the new one exists afterwards only
  if that call succeeds).
* `tStart`, `tEnd` — the `time.time()` readings at entry and at completion.

Paths, in source order: short-circuit when `is_building`; set
`is_building := true`; when the gallery is empty set `image_count := 0` and
return early (the `finally` still clears `is_building`, but
`last_build_time` is NOT written on this path); on an exception increment
`error_count` and re-raise (`finally` clears `is_building`); otherwise run
the full or incremental strategy and write `image_count`,
`last_build_time` and `build_duration`. -/
def update_database_async (raises findOk : Bool) (tStart tEnd : ℚ)
    (w : World) (st : DBState) : World × DBState × UpdateResult :=
  if st.is_building then (w, st, .busy)
  else
    let st1 := update_entry st
    if w.galleryCount = 0 then
      (w, { st1 with image_count := 0, is_building := false }, .ok)
    else if raises then
      (w, { st1 with error_count := st1.error_count + 1, is_building := false }, .error)
    else
      let w1 := if needs_full_rebuild w st1 then { w with pickleExists := findOk } else w
      (w1, { st1 with
              image_count := w.galleryCount,
              last_build_time := some tEnd,
              build_duration := some (tEnd - tStart),
              is_building := false }, .ok)

/-! ## FaceRecognizer (modules/face_recognition.py) -/

/-- The method names the `FaceRecognizer` class defines
(face_recognition.py lines 19-249).  Attribute lookup of any other name on a
`FaceRecognizer` instance raises `AttributeError`. -/
def faceRecognizerMethods : List String :=
  ["__init__", "find_match_in_memory", "search_face_in_memory",
   "find_best_backend_in_memory", "manual_search_in_memory",
   "find_best_backend", "search_face", "manual_search",
   "process_face_match", "process_frame_silent"]

/-- The attribute name called by the live-stream background task
(live_stream_handler.py line 55). -/
def find_match_from_stream_name : String := "find_match_from_stream"

/-- One iteration of the loop in `FaceRecognizer.manual_search`
(face_recognition.py lines 178-193).  A candidate is its gallery file name
paired with the outcome of the `DeepFace.verify` comparison against the
query: `none` when the call raised (`except Exception: continue`), `some d`
when it reported cosine distance `d`.  The accumulator mirrors
`(best_identity, best_distance)`, which are `None` together;
the update condition is the source's
`best_distance is None or distance < best_distance`. -/
def manual_search_step (best : Option (String × ℚ)) (c : String × Option ℚ) :
    Option (String × ℚ) :=
  match c.2 with
  | none => best
  | some d =>
    match best with
    | none => some (c.1, d)
    | some (bi, bd) => if d < bd then (some (c.1, d)) else (some (bi, bd))

/-- face_recognition.py lines 170-195, `FaceRecognizer.manual_search`:
fold the loop body over the image files returned by `get_image_files`.
A `none` result models the source returning `(None, None)`. -/
def manual_search (candidates : List (String × Option ℚ)) : Option (String × ℚ) :=
  candidates.foldl manual_search_step none

/-- face_recognition.py lines 145-168, `FaceRecognizer.search_face`:
when a pickle index exists and `DeepFace.find` returns a non-empty result
table the top row is returned; on every other path (no pickle, the call
raised, or the table was empty) control falls through to `manual_search`.
`pickleBest` bundles the fast path: `some (identity, distance)` when the
pickle existed and the find succeeded with a non-empty table. -/
def search_face (pickleBest : Option (String × ℚ))
    (candidates : List (String × Option ℚ)) : Option (String × ℚ) :=
  match pickleBest with
  | some best => some best
  | none => manual_search candidates

/-- Round a rational to `n` decimal digits, modelling Python's
`round(x, n)` at the (tie-free) values the claims evaluate. -/
def round_to (n : ℕ) (q : ℚ) : ℚ := (round (q * 10 ^ n) : ℤ) / 10 ^ n

/-- The response dictionary of `FaceRecognizer.process_face_match`.
In the found case the source also formats a message string from the
confidence; that formatted string is determined by the `confidence` field
and is not modelled separately. -/
inductive MatchResponse
  | noMatch (message : String)
  | found (confidence distance : ℚ) (matched_image : String)
deriving DecidableEq, Repr

/-- face_recognition.py lines 197-242, `FaceRecognizer.process_face_match`
(the module version wrapping the file-based search): run `search_face`; when
it yields no identity answer `match_found: False` with the fixed message;
otherwise answer `match_found: True` with
`confidence = round(1 - distance, 3)` and `distance = round(distance, 4)`.
The enhancement preamble only changes which query file is searched with, and
the initial auto-rebuild only affects the pickle state: neither alters the
shape of the result, and the `except` clauses return `match_found: False`
dictionaries instead of propagating.  Note that no branch of this function
(nor of `search_face` / `manual_search`) consults `CONFIDENCE_THRESHOLD`. -/
def process_face_match (pickleBest : Option (String × ℚ))
    (candidates : List (String × Option ℚ)) : MatchResponse :=
  match search_face pickleBest candidates with
  | none => .noMatch "No similar face found in database."
  | some (identity, distance) =>
    .found (round_to 3 (1 - distance)) (round_to 4 distance) identity

/-! ## LiveStreamHandler (modules/live_stream_handler.py) -/

/-- The per-identity cooldown filter at live_stream_handler.py lines 62-81:
given the session's `recent_matches` dictionary, a matched `filename` and the
current time, either notify (absent entry, or window strictly exceeded:
`current_time - self.recent_matches[filename] > MATCH_COOLDOWN`) and
refresh the stored timestamp, or suppress leaving the dictionary unchanged.
Returns the updated dictionary and whether a notification was emitted. -/
def cooldown_step (recent : String → Option ℚ) (filename : String) (now : ℚ) :
    (String → Option ℚ) × Bool :=
  match recent filename with
  | none => (fun g => if g = filename then some now else recent g, true)
  | some last =>
    if now - last > MATCH_COOLDOWN then
      (fun g => if g = filename then some now else recent g, true)
    else (recent, false)

/-- live_stream_handler.py lines 35-86,
`LiveStreamHandler._run_blocking_face_analysis`, as a function of the
session's `recent_matches` dictionary.

* `embedOk` — whether `DeepFace.represent` produced an embedding (lines
  43-50; on failure the function returns early through `finally`).
* `hypMatch` — the matched filename the call
  `self.face_recognizer.find_match_from_stream(...)` would deliver if that
  attribute resolved; the branch is reachable only when the name is among
  `faceRecognizerMethods`, otherwise the lookup raises `AttributeError`
  and control lands in the `except` clause at line 82.
* The `finally` clause (lines 84-86) clears `is_processing_heavy_task` on
  every path, so the returned flag component is the flag's value after the
  task.

Returns `(recent_matches', is_processing_heavy_task', notificationSent)`. -/
def run_blocking_face_analysis (embedOk : Bool) (hypMatch : Option String)
    (now : ℚ) (recent : String → Option ℚ) :
    (String → Option ℚ) × Bool × Bool :=
  if !embedOk then (recent, false, false)
  else if find_match_from_stream_name ∈ faceRecognizerMethods then
    match hypMatch with
    | some filename =>
      let r := cooldown_step recent filename now
      (r.1, false, r.2)
    | none => (recent, false, false)
  else (recent, false, false)

/-- The attribute name called on `self.image_processor` for every decoded
frame (live_stream_handler.py line 124). -/
def detect_faces_name : String := "detect_faces"

/-- The fate of one inbound WebSocket message in the frame loop of
`handle_websocket` (live_stream_handler.py lines 100-143). -/
inductive FrameOutcome
  | reply (face_detected : Bool) (has_box : Bool) (dispatched : Bool)
  | skipped
  | sessionError
deriving DecidableEq, Repr

/-- live_stream_handler.py lines 101-142, the body of the frame loop of
`LiveStreamHandler.handle_websocket` for one inbound message.

* `decodeOk` — the base64 decode succeeded (failure: `continue`, no reply,
  lines 108-117).
* `frameOk` — `cv2.imdecode` returned a frame (`None`: `continue`, line 121).
* `facesCount` — the number of boxes the face-detector call would report.
* `heavyInFlight` — `self.is_processing_heavy_task` when the frame arrives.

The detector call is `self.image_processor.detect_faces(...)`; when that
name is not among `imageProcessorMethods` the lookup raises
`AttributeError`, which no handler inside the loop catches — it reaches the
`except` around the whole loop (line 144) and the session closes without a
reply.  Otherwise the frame is answered with `response_data`
(`face_detected`/`face_box`), and a background task is dispatched when a
face is present and none is in flight. -/
def handle_frame (decodeOk frameOk : Bool) (facesCount : ℕ) (heavyInFlight : Bool) :
    FrameOutcome :=
  if !decodeOk then .skipped
  else if !frameOk then .skipped
  else if detect_faces_name ∈ imageProcessorMethods then
    if 0 < facesCount then .reply true true (!heavyInFlight)
    else .reply false false false
  else .sessionError

/-! ## GalleryWatcher (modules/file_monitor.py) -/

/-- A watchdog event as `ReportsFileHandler.on_created` inspects it, plus
the `time.time()` reading taken while handling it. -/
structure FsEvent where
  isFileCreated : Bool
  is_directory : Bool
  src_path : String
  time : ℚ
deriving DecidableEq, Repr

/-- file_monitor.py lines 26-37, `ReportsFileHandler.on_created`: for a
non-directory `FileCreatedEvent` whose path has an image suffix, trigger iff
`current_time - self.last_trigger > 2`, updating `last_trigger` on a
trigger; a rebuild is actually scheduled only when the stored loop is open
(`loopOpen`).  Returns `(last_trigger', scheduled)`. -/
def on_created (loopOpen : Bool) (e : FsEvent) (last_trigger : ℚ) : ℚ × Bool :=
  if e.isFileCreated && !e.is_directory then
    if is_image_path e.src_path then
      if e.time - last_trigger > 2 then (e.time, loopOpen)
      else (last_trigger, false)
    else (last_trigger, false)
  else (last_trigger, false)

/-- Deliver a sequence of file-system events to `on_created`, counting the
rebuilds scheduled.  Returns `(last_trigger', scheduled_count)`. -/
def process_events (loopOpen : Bool) : List FsEvent → ℚ → ℚ × ℕ
  | [], lt => (lt, 0)
  | e :: rest, lt =>
    let r := on_created loopOpen e lt
    let s := process_events loopOpen rest r.1
    (s.1, (if r.2 then 1 else 0) + s.2)

/-! ## Theorems -/

/-- C1.  The claim states that a one-shot query whose best similarity is
below the configured confidence threshold yields `identityFound=false`;
in particular one gallery entry at cosine similarity 0.2 (DeepFace cosine
distance 0.8) under threshold 0.4 must be rejected.  The code disagrees:
`process_face_match` applies no threshold anywhere — with no usable pickle
result (the fast path falls through for exactly such queries),
`manual_search` returns the best candidate at any distance and the response
reports `match_found: True` with confidence 0.2, which is strictly below
`CONFIDENCE_THRESHOLD`. -/
theorem C1_below_threshold_still_reported :
    process_face_match none [("E.jpg", some (8 / 10))] =
      .found (2 / 10) (8 / 10) "E.jpg" ∧
    (2 / 10 : ℚ) < CONFIDENCE_THRESHOLD := by
  have h1 : round_to 3 (1 - 8 / 10 : ℚ) = 2 / 10 := by norm_num [round_to, round_eq]
  have h2 : round_to 4 (8 / 10 : ℚ) = 8 / 10 := by norm_num [round_to, round_eq]
  refine ⟨?_, by norm_num [CONFIDENCE_THRESHOLD]⟩
  show MatchResponse.found (round_to 3 (1 - 8 / 10)) (round_to 4 (8 / 10)) "E.jpg" =
    MatchResponse.found (2 / 10) (8 / 10) "E.jpg"
  rw [h1, h2]

/-- C2.  The live-stream background task calls
`self.face_recognizer.find_match_from_stream(...)`, a name the
`FaceRecognizer` class never defines; hence whenever the embedding step
succeeds the `AttributeError` lands in the task's exception handler, no
match notification is ever sent, the `recent_matches` dictionary is
untouched, and the `finally` block still resets
`is_processing_heavy_task` to `False`. -/
theorem C2_stream_match_method_missing :
    find_match_from_stream_name ∉ faceRecognizerMethods ∧
    ∀ (hypMatch : Option String) (now : ℚ) (recent : String → Option ℚ),
      run_blocking_face_analysis true hypMatch now recent = (recent, false, false) := by
  refine ⟨by decide, ?_⟩
  intro hypMatch now recent
  simp [run_blocking_face_analysis, find_match_from_stream_name, faceRecognizerMethods]

/-- C6.  A query over an empty gallery never errors and reports no match:
`get_image_files` yields `[]` for a missing or empty directory,
`manual_search` over the empty candidate list returns `(None, None)`
(embedded as `none`), and `process_face_match` then answers
`match_found: False` with the no-match message. -/
theorem C6_empty_gallery_no_match :
    (∀ entries, get_image_files false entries = []) ∧
    get_image_files true [] = [] ∧
    manual_search [] = none ∧
    process_face_match none [] = .noMatch "No similar face found in database." := by
  refine ⟨fun entries => rfl, rfl, rfl, rfl⟩

/-- C9.  The claim states that every inbound frame is answered with a
presence/box reply.  The code cannot do so: the frame loop calls
`self.image_processor.detect_faces(...)`, a name the `ImageProcessor` class
never defines, so every decodable frame raises `AttributeError` inside the
loop; the only handler is the one wrapped around the whole loop, which
terminates the session without replying. -/
theorem C9_frame_reply_impossible :
    detect_faces_name ∉ imageProcessorMethods ∧
    ∀ (facesCount : ℕ) (heavyInFlight : Bool),
      handle_frame true true facesCount heavyInFlight = .sessionError := by
  refine ⟨by decide, ?_⟩
  intro facesCount heavyInFlight
  simp [handle_frame, detect_faces_name, imageProcessorMethods]

/-- C4, counterexample.  The claim states `should_rebuild_database` returns
true if and only if (no pickle file exists and the gallery count is
positive) or (the gallery count differs from the cached `image_count`).
At the state with no pickle, an empty gallery and a cached count of 5, the
right-hand side holds (0 ≠ 5) yet the function returns false: with no
pickle the source returns `current_count > 0` without ever comparing the
counts. -/
theorem C4_counterexample :
    should_rebuild_database ⟨0, false⟩ ⟨none, 5, false, none, 0⟩ = false ∧
    (((⟨0, false⟩ : World).pickleExists = false ∧ 0 < (⟨0, false⟩ : World).galleryCount) ∨
      (⟨0, false⟩ : World).galleryCount ≠ (⟨none, 5, false, none, 0⟩ : DBState).image_count) := by
  refine ⟨by decide, Or.inr (by decide)⟩

/-- C10, counterexample.  The claim states that after every completed
(non-busy, non-raising) invocation of `update_database_async` the state has
`last_build_time` updated to the completion time, including when the
gallery is empty.  With an empty gallery the source returns early after
setting `image_count := 0` and never writes `last_build_time`: at a state
whose `last_build_time` is `some 3`, a completed call finishing at time 10
leaves it at `some 3`. -/
theorem C10_counterexample :
    (update_database_async false true 0 10 ⟨0, true⟩ ⟨some 3, 5, false, none, 0⟩).2.2 =
      .ok ∧
    (update_database_async false true 0 10 ⟨0, true⟩
        ⟨some 3, 5, false, none, 0⟩).2.1.last_build_time ≠ some 10 ∧
    (update_database_async false true 0 10 ⟨0, true⟩
        ⟨some 3, 5, false, none, 0⟩).2.1.last_build_time = some 3 ∧
    (update_database_async false true 0 10 ⟨0, true⟩
        ⟨some 3, 5, false, none, 0⟩).2.1.image_count = 0 := by
  refine ⟨by decide, by decide, by decide, by decide⟩

/-- C3.  The single-writer discipline of `update_database_async`: a call
with `is_building` already true is a pure no-op answering busy; otherwise
`is_building` is true at entry (`update_entry`), a second request issued
during the build short-circuits, the first request is not the busy one, and
`is_building` is false on every exit — the exception path (`raises`
arbitrary) and the empty-gallery early return included. -/
theorem C3_rebuild_mutual_exclusion (w : World) (st : DBState) (raises findOk : Bool)
    (tStart tEnd : ℚ) (h : st.is_building = false) :
    (∀ (w2 : World) (st2 : DBState) (r f : Bool) (t0 t1 : ℚ), st2.is_building = true →
      update_database_async r f t0 t1 w2 st2 = (w2, st2, .busy)) ∧
    (update_entry st).is_building = true ∧
    update_database_async raises findOk tStart tEnd w (update_entry st) =
      (w, update_entry st, .busy) ∧
    (update_database_async raises findOk tStart tEnd w st).2.2 ≠ .busy ∧
    (update_database_async raises findOk tStart tEnd w st).2.1.is_building = false := by
  refine ⟨?_, rfl, ?_, ?_, ?_⟩
  · intro w2 st2 r f t0 t1 hb
    simp [update_database_async, hb]
  · simp [update_database_async, update_entry]
  · simp only [update_database_async, h, Bool.false_eq_true, if_false]
    split
    · simp
    · split <;> simp
  · simp only [update_database_async, h, Bool.false_eq_true, if_false]
    split
    · simp
    · split <;> simp

/-- Witness for C3 at a concrete idle state. -/
theorem C3_witness :
    (⟨none, 0, false, none, 0⟩ : DBState).is_building = false ∧
    ((∀ (w2 : World) (st2 : DBState) (r f : Bool) (t0 t1 : ℚ), st2.is_building = true →
        update_database_async r f t0 t1 w2 st2 = (w2, st2, .busy)) ∧
      (update_entry ⟨none, 0, false, none, 0⟩).is_building = true ∧
      update_database_async false true 0 5 ⟨1, true⟩ (update_entry ⟨none, 0, false, none, 0⟩) =
        (⟨1, true⟩, update_entry ⟨none, 0, false, none, 0⟩, .busy) ∧
      (update_database_async false true 0 5 ⟨1, true⟩ ⟨none, 0, false, none, 0⟩).2.2 ≠ .busy ∧
      (update_database_async false true 0 5 ⟨1, true⟩
          ⟨none, 0, false, none, 0⟩).2.1.is_building = false) :=
  ⟨rfl, C3_rebuild_mutual_exclusion ⟨1, true⟩ ⟨none, 0, false, none, 0⟩ false true 0 5 rfl⟩

/-- C4, amended.  `should_rebuild_database` returns true iff either no
pickle index exists and the gallery count is positive, or a pickle index
exists and the gallery count differs from the cached `image_count` (the
count comparison is unreachable when no pickle exists).  The two spec
scenarios survive the amendment: it returns true right after the first
image is added next to an empty cached state, and false right after a
completed rebuild (one whose `DeepFace.find` produced the fresh pickle)
with no further gallery changes. -/
theorem C4_should_rebuild_amended :
    (∀ (w : World) (st : DBState),
      should_rebuild_database w st = true ↔
        ((w.pickleExists = false ∧ 0 < w.galleryCount) ∨
          (w.pickleExists = true ∧ w.galleryCount ≠ st.image_count))) ∧
    (∀ (st : DBState) (pkl : Bool), st.image_count = 0 →
      should_rebuild_database ⟨1, pkl⟩ st = true) ∧
    (∀ (w : World) (st : DBState) (tStart tEnd : ℚ), st.is_building = false →
      should_rebuild_database (update_database_async false true tStart tEnd w st).1
        (update_database_async false true tStart tEnd w st).2.1 = false) := by
  refine ⟨?_, ?_, ?_⟩
  · intro w st
    rcases w with ⟨n, pkl⟩
    cases pkl <;> simp [should_rebuild_database]
  · intro st pkl h0
    cases pkl <;> simp [should_rebuild_database, h0]
  · intro w st tStart tEnd hb
    simp only [update_database_async, hb, Bool.false_eq_true, if_false]
    by_cases hg : w.galleryCount = 0
    · cases hp : w.pickleExists <;>
        simp [hg, hp, should_rebuild_database, update_entry]
    · simp only [hg, if_false, Bool.false_eq_true]
      by_cases hf : needs_full_rebuild w (update_entry st) = true
      · simp [hf, should_rebuild_database]
      · have hp : w.pickleExists = true := by
          rcases w with ⟨n, pkl⟩
          cases pkl
          · simp [needs_full_rebuild] at hf
          · rfl
        simp [hf, should_rebuild_database, hp]

/-- Witness for C4 at concrete states: the first image added to an empty
cached state forces a rebuild, and a completed rebuild of a 2-image gallery
leaves nothing to rebuild. -/
theorem C4_witness :
    (⟨none, 0, false, none, 0⟩ : DBState).image_count = 0 ∧
    should_rebuild_database ⟨1, false⟩ ⟨none, 0, false, none, 0⟩ = true ∧
    (⟨some 1, 2, false, none, 0⟩ : DBState).is_building = false ∧
    should_rebuild_database (update_database_async false true 3 4 ⟨2, false⟩
        ⟨some 1, 2, false, none, 0⟩).1
      (update_database_async false true 3 4 ⟨2, false⟩ ⟨some 1, 2, false, none, 0⟩).2.1 =
      false :=
  ⟨rfl, C4_should_rebuild_amended.2.1 ⟨none, 0, false, none, 0⟩ false rfl, rfl,
    C4_should_rebuild_amended.2.2 ⟨2, false⟩ ⟨some 1, 2, false, none, 0⟩ 3 4 rfl⟩

/-- Invariant of the `manual_search` loop after the first successful
comparison: folding from the accumulator `(nm, bd)` either keeps it (and
then `bd` is at most every later successful distance) or lands on a later
candidate that is strictly better than `bd`, minimal among the remaining
successes, with every success before it strictly greater. -/
theorem manual_search_loop_spec (rest : List (String × Option ℚ)) :
    ∀ (nm : String) (bd : ℚ),
      (rest.foldl manual_search_step (some (nm, bd)) = some (nm, bd) ∧
        ∀ p ∈ rest, ∀ e, p.2 = some e → bd ≤ e) ∨
      (∃ l₁ nm2 d2 l₂, rest = l₁ ++ (nm2, some d2) :: l₂ ∧
        rest.foldl manual_search_step (some (nm, bd)) = some (nm2, d2) ∧ d2 < bd ∧
        (∀ p ∈ l₁, ∀ e, p.2 = some e → d2 < e) ∧
        (∀ p ∈ l₂, ∀ e, p.2 = some e → d2 ≤ e)) := by
  induction rest with
  | nil =>
    intro nm bd
    exact Or.inl ⟨rfl, by simp⟩
  | cons c rest ih =>
    intro nm bd
    rcases c with ⟨cn, co⟩
    cases co with
    | none =>
      rcases ih nm bd with ⟨h1, h2⟩ | ⟨l₁, nm2, d2, l₂, hsplit, hres, hlt, ha, hb⟩
      · refine Or.inl ⟨?_, ?_⟩
        · rw [List.foldl_cons]; exact h1
        · intro p hp e he
          rcases List.mem_cons.mp hp with rfl | hp
          · simp at he
          · exact h2 p hp e he
      · refine Or.inr ⟨(cn, none) :: l₁, nm2, d2, l₂, by simp [hsplit], ?_, hlt, ?_, hb⟩
        · rw [List.foldl_cons]; exact hres
        · intro p hp e he
          rcases List.mem_cons.mp hp with rfl | hp
          · simp at he
          · exact ha p hp e he
    | some e0 =>
      by_cases hlt0 : e0 < bd
      · have hstep : manual_search_step (some (nm, bd)) (cn, some e0) = some (cn, e0) := by
          simp [manual_search_step, hlt0]
        rcases ih cn e0 with ⟨h1, h2⟩ | ⟨l₁, nm2, d2, l₂, hsplit, hres, hlt, ha, hb⟩
        · refine Or.inr ⟨[], cn, e0, rest, by simp, ?_, hlt0, by simp, h2⟩
          rw [List.foldl_cons, hstep]; exact h1
        · refine Or.inr ⟨(cn, some e0) :: l₁, nm2, d2, l₂, by simp [hsplit], ?_,
            lt_trans hlt hlt0, ?_, hb⟩
          · rw [List.foldl_cons, hstep]; exact hres
          · intro p hp e he
            rcases List.mem_cons.mp hp with rfl | hp
            · simp at he; rw [← he]; exact hlt
            · exact ha p hp e he
      · have hstep : manual_search_step (some (nm, bd)) (cn, some e0) = some (nm, bd) := by
          simp [manual_search_step, hlt0]
        have hbe : bd ≤ e0 := not_lt.mp hlt0
        rcases ih nm bd with ⟨h1, h2⟩ | ⟨l₁, nm2, d2, l₂, hsplit, hres, hlt, ha, hb⟩
        · refine Or.inl ⟨?_, ?_⟩
          · rw [List.foldl_cons, hstep]; exact h1
          · intro p hp e he
            rcases List.mem_cons.mp hp with rfl | hp
            · simp at he; rw [← he]; exact hbe
            · exact h2 p hp e he
        · refine Or.inr ⟨(cn, some e0) :: l₁, nm2, d2, l₂, by simp [hsplit], ?_, hlt, ?_, hb⟩
          · rw [List.foldl_cons, hstep]; exact hres
          · intro p hp e he
            rcases List.mem_cons.mp hp with rfl | hp
            · simp at he; rw [← he]; exact lt_of_lt_of_le hlt hbe
            · exact ha p hp e he

/-- C5.  For a gallery in which at least one candidate comparison
succeeded, `manual_search` returns a succeeded candidate of the list whose
distance is minimal — maximal cosine similarity — among all succeeded
candidates, and every succeeded candidate strictly before it in enumeration
order has strictly greater distance: on an exact tie the first candidate
wins, since the source's strict `distance < best_distance` never replaces
an equal best. -/
theorem C5_manual_search_first_min (cs : List (String × Option ℚ))
    (h : ∃ p ∈ cs, p.2 ≠ none) :
    ∃ l₁ nm d l₂, cs = l₁ ++ (nm, some d) :: l₂ ∧
      manual_search cs = some (nm, d) ∧
      (∀ p ∈ l₁, ∀ e, p.2 = some e → d < e) ∧
      (∀ p ∈ l₂, ∀ e, p.2 = some e → d ≤ e) := by
  induction cs with
  | nil => simp at h
  | cons c cs ih =>
    rcases c with ⟨cn, co⟩
    cases co with
    | none =>
      have h2 : ∃ p ∈ cs, p.2 ≠ none := by
        rcases h with ⟨p, hp, hne⟩
        rcases List.mem_cons.mp hp with rfl | hp
        · simp at hne
        · exact ⟨p, hp, hne⟩
      rcases ih h2 with ⟨l₁, nm, d, l₂, hsplit, hres, ha, hb⟩
      refine ⟨(cn, none) :: l₁, nm, d, l₂, by simp [hsplit], ?_, ?_, hb⟩
      · rw [manual_search, List.foldl_cons]
        exact hres
      · intro p hp e he
        rcases List.mem_cons.mp hp with rfl | hp
        · simp at he
        · exact ha p hp e he
    | some d0 =>
      rcases manual_search_loop_spec cs cn d0 with ⟨h1, h2⟩ |
        ⟨l₁, nm2, d2, l₂, hsplit, hres, hlt, ha, hb⟩
      · refine ⟨[], cn, d0, cs, by simp, ?_, by simp, h2⟩
        rw [manual_search, List.foldl_cons]
        exact h1
      · refine ⟨(cn, some d0) :: l₁, nm2, d2, l₂, by simp [hsplit], ?_, ?_, hb⟩
        · rw [manual_search, List.foldl_cons]
          exact hres
        · intro p hp e he
          rcases List.mem_cons.mp hp with rfl | hp
          · simp at he; rw [← he]; exact hlt
          · exact ha p hp e he

/-- Witness for C5 on a concrete gallery with a failed comparison and a
tied pair of best distances. -/
theorem C5_witness :
    (∃ p ∈ ([("a", (none : Option ℚ)), ("b", some 2), ("c", some 1), ("d", some 1)]),
      p.2 ≠ none) ∧
    (∃ l₁ nm d l₂,
      ([("a", (none : Option ℚ)), ("b", some 2), ("c", some 1), ("d", some 1)]) =
        l₁ ++ (nm, some d) :: l₂ ∧
      manual_search [("a", (none : Option ℚ)), ("b", some 2), ("c", some 1), ("d", some 1)] =
        some (nm, d) ∧
      (∀ p ∈ l₁, ∀ e, p.2 = some e → d < e) ∧
      (∀ p ∈ l₂, ∀ e, p.2 = some e → d ≤ e)) :=
  ⟨⟨("b", some 2), List.Mem.tail _ (List.Mem.head _), by simp⟩,
    C5_manual_search_first_min _ ⟨("b", some 2), List.Mem.tail _ (List.Mem.head _), by simp⟩⟩

/-- C7.  Within one session's `recent_matches`, a first match for an
identity notifies and stamps its time; a second match inside the cooldown
window is suppressed and leaves the stamp untouched (refreshed only on
emission); a third match strictly after the window measured from the first
notification notifies again. -/
theorem C7_cooldown (recent : String → Option ℚ) (f : String) (t1 t2 t3 : ℚ)
    (h0 : recent f = none) (h12 : t2 - t1 ≤ MATCH_COOLDOWN)
    (h13 : t3 - t1 > MATCH_COOLDOWN) :
    (cooldown_step recent f t1).2 = true ∧
    (cooldown_step (cooldown_step recent f t1).1 f t2).2 = false ∧
    (cooldown_step (cooldown_step recent f t1).1 f t2).1 f = some t1 ∧
    (cooldown_step (cooldown_step (cooldown_step recent f t1).1 f t2).1 f t3).2 = true := by
  have hn : ¬t2 - t1 > MATCH_COOLDOWN := not_lt.mpr h12
  have e1 : cooldown_step recent f t1 =
      (fun g => if g = f then some t1 else recent g, true) := by
    simp [cooldown_step, h0]
  refine ⟨by rw [e1], ?_, ?_, ?_⟩
  · rw [e1]
    simp [cooldown_step, hn]
  · rw [e1]
    simp [cooldown_step, hn]
  · rw [e1]
    simp [cooldown_step, hn, h13]

/-- Witness for C7: matches at times 0, 3 and 6 under the 5-second window. -/
theorem C7_witness :
    ((fun _ => (none : Option ℚ)) "x" = none) ∧
    ((3 : ℚ) - 0 ≤ MATCH_COOLDOWN) ∧ ((6 : ℚ) - 0 > MATCH_COOLDOWN) ∧
    ((cooldown_step (fun _ => (none : Option ℚ)) "x" 0).2 = true ∧
      (cooldown_step (cooldown_step (fun _ => (none : Option ℚ)) "x" 0).1 "x" 3).2 = false ∧
      (cooldown_step (cooldown_step (fun _ => (none : Option ℚ)) "x" 0).1 "x" 3).1 "x" =
        some 0 ∧
      (cooldown_step (cooldown_step (cooldown_step (fun _ => (none : Option ℚ)) "x" 0).1
          "x" 3).1 "x" 6).2 = true) :=
  ⟨rfl, by norm_num [MATCH_COOLDOWN], by norm_num [MATCH_COOLDOWN],
    C7_cooldown (fun _ => none) "x" 0 3 6 rfl (by norm_num [MATCH_COOLDOWN])
      (by norm_num [MATCH_COOLDOWN])⟩

/-- Events whose times stay within the 2-second window of the last trigger
are all dropped: the trigger time is unchanged and nothing is scheduled. -/
theorem process_events_window_quiet (t0 : ℚ) (rest : List FsEvent)
    (h : ∀ e ∈ rest, e.time - t0 ≤ 2) :
    process_events true rest t0 = (t0, 0) := by
  induction rest with
  | nil => rfl
  | cons e rest ih =>
    have he : ¬e.time - t0 > 2 := not_lt.mpr (h e (List.mem_cons_self e rest))
    have hoc : on_created true e t0 = (t0, false) := by
      simp [on_created, he]
    have ihr : process_events true rest t0 = (t0, 0) :=
      ih (fun e2 he2 => h e2 (List.mem_cons_of_mem e he2))
    simp [process_events, hoc, ihr]

/-- C8.  The gallery watcher's leading-edge debounce: an image-creation
event more than 2 seconds past the previous trigger schedules a rebuild and
restamps the trigger time; every further event within 2 seconds of that
trigger is dropped without scheduling or queueing anything, so a burst
beginning with such an event and staying inside the window schedules
exactly one rebuild. -/
theorem C8_debounce (e0 : FsEvent) (rest : List FsEvent) (lt0 : ℚ)
    (h0 : e0.isFileCreated = true) (h1 : e0.is_directory = false)
    (h2 : is_image_path e0.src_path = true) (h3 : e0.time - lt0 > 2)
    (h4 : ∀ e ∈ rest, e.time - e0.time ≤ 2) :
    (process_events true (e0 :: rest) lt0).2 = 1 := by
  have hoc : on_created true e0 lt0 = (e0.time, true) := by
    simp only [on_created, h0, h1, h2, Bool.not_false, Bool.and_self, if_true]
    rw [if_pos h3]
  simp [process_events, hoc, process_events_window_quiet e0.time rest h4]

/-- Witness for C8: five image files created within one second, the first
arriving long after the previous trigger, schedule exactly one rebuild. -/
theorem C8_witness :
    (⟨true, false, "a.jpg", 100⟩ : FsEvent).isFileCreated = true ∧
    is_image_path "a.jpg" = true ∧
    ((100 : ℚ) - 0 > 2) ∧
    (∀ e ∈ ([⟨true, false, "b.jpg", 100⟩, ⟨true, false, "c.png", 100⟩,
        ⟨true, false, "d.jpeg", 101⟩, ⟨true, false, "e.jpg", 101⟩] : List FsEvent),
      e.time - (⟨true, false, "a.jpg", 100⟩ : FsEvent).time ≤ 2) ∧
    (process_events true
      ([⟨true, false, "a.jpg", 100⟩, ⟨true, false, "b.jpg", 100⟩,
        ⟨true, false, "c.png", 100⟩, ⟨true, false, "d.jpeg", 101⟩,
        ⟨true, false, "e.jpg", 101⟩] : List FsEvent) 0).2 = 1 := by
  have hmem : ∀ e ∈ ([⟨true, false, "b.jpg", 100⟩, ⟨true, false, "c.png", 100⟩,
      ⟨true, false, "d.jpeg", 101⟩, ⟨true, false, "e.jpg", 101⟩] : List FsEvent),
      e.time - (⟨true, false, "a.jpg", 100⟩ : FsEvent).time ≤ 2 := by
    intro e he
    simp only [List.mem_cons, List.not_mem_nil, or_false] at he
    rcases he with rfl | rfl | rfl | rfl <;> norm_num
  refine ⟨rfl, by decide, by norm_num, hmem, ?_⟩
  exact C8_debounce ⟨true, false, "a.jpg", 100⟩ _ 0 rfl rfl (by decide) (by norm_num) hmem

/-- C10, amended.  After every non-busy, non-raising invocation of
`update_database_async`, the cached `image_count` equals the gallery's
current image-file count; `last_build_time` is stamped with the completion
time when the gallery was non-empty, and is left unchanged by the
empty-gallery early return. -/
theorem C10_state_after_rebuild (w : World) (st : DBState) (findOk : Bool)
    (tStart tEnd : ℚ) (hb : st.is_building = false) :
    (update_database_async false findOk tStart tEnd w st).2.2 = .ok ∧
    (update_database_async false findOk tStart tEnd w st).2.1.image_count =
      w.galleryCount ∧
    (0 < w.galleryCount →
      (update_database_async false findOk tStart tEnd w st).2.1.last_build_time =
        some tEnd) ∧
    (w.galleryCount = 0 →
      (update_database_async false findOk tStart tEnd w st).2.1.last_build_time =
        st.last_build_time) := by
  simp only [update_database_async, hb, Bool.false_eq_true, if_false]
  by_cases hg : w.galleryCount = 0
  · simp [hg, update_entry]
  · simp [hg, update_entry, Nat.pos_of_ne_zero hg]

/-- Witness for C10 at a concrete idle state and 3-image gallery. -/
theorem C10_witness :
    (⟨none, 1, false, none, 0⟩ : DBState).is_building = false ∧
    ((update_database_async false true 2 7 ⟨3, true⟩ ⟨none, 1, false, none, 0⟩).2.2 =
        .ok ∧
      (update_database_async false true 2 7 ⟨3, true⟩
          ⟨none, 1, false, none, 0⟩).2.1.image_count = (⟨3, true⟩ : World).galleryCount ∧
      (0 < (⟨3, true⟩ : World).galleryCount →
        (update_database_async false true 2 7 ⟨3, true⟩
            ⟨none, 1, false, none, 0⟩).2.1.last_build_time = some 7) ∧
      ((⟨3, true⟩ : World).galleryCount = 0 →
        (update_database_async false true 2 7 ⟨3, true⟩
            ⟨none, 1, false, none, 0⟩).2.1.last_build_time =
          (⟨none, 1, false, none, 0⟩ : DBState).last_build_time)) :=
  ⟨rfl, C10_state_after_rebuild ⟨3, true⟩ ⟨none, 1, false, none, 0⟩ true 2 7 rfl⟩

end Drishti
